import Mathlib

/-!
Shallow embedding of `src/monitor_control.py`: the capabilities-string
parser (`Display.parse_capabilities_string`, `Display._parse_vcp_list`),
the VCP registry (`vcp_codes` and the enumeration tables), and the
Display-model property getters/setters, with device I/O modelled as an
explicit event trace against a pure device function
`dev : code -> (current, maximum)`.
-/

/-- Python runtime errors that the embedded code can raise. -/
inductive PyErr where
  | keyError
  | indexError
  | unboundLocal
  | zeroDivision
deriving DecidableEq, Repr

/-- Python index normalisation for a slice endpoint: negative indices count
from the end, then the result is clamped into `[0, len]`. -/
def pyIdx (len : Nat) (x : Int) : Nat :=
  if x < 0 then (x + len).toNat else min x.toNat len

/-- Python slice `s[a:b]` with possibly negative endpoints. -/
def pySlice (s : List Char) (a b : Int) : List Char :=
  (s.take (pyIdx s.length b)).drop (pyIdx s.length a)

/-- Python slice `s[a:b]` for nonnegative endpoints. -/
def pySliceNat (s : List Char) (a b : Nat) : List Char :=
  (s.take b).drop a

/-- Python single-element indexing `s[x]`: a negative index counts from the
end; out of range is an IndexError (here: `none`). -/
def pyGet (s : List Char) (x : Int) : Option Char :=
  let j := if x < 0 then x + s.length else x
  if j < 0 then none else s[j.toNat]?

/-- Python `str.isspace` restricted to the ASCII range (the capability
strings handled by the program are ASCII). -/
def pyIsSpace (c : Char) : Bool :=
  c = ' ' || c = '\t' || c = '\n' || c = '\r' ||
  c = Char.ofNat 11 || c = Char.ofNat 12 ||
  c = Char.ofNat 28 || c = Char.ofNat 29 || c = Char.ofNat 30 ||
  c = Char.ofNat 31

/-- Python dict assignment `d[k] = v` on an insertion-ordered association
list: replace in place if the key exists, else append. -/
def pyDictSet {κ α : Type} [DecidableEq κ] (k : κ) (v : α) :
    List (κ × α) → List (κ × α)
  | [] => [(k, v)]
  | (k', v') :: rest =>
      if k' = k then (k, v) :: rest else (k', v') :: pyDictSet k v rest

/-- Helper for Python `str.split()`: accumulate the current token
(reversed) and split on whitespace runs, dropping empty tokens. -/
def splitWsAux : List Char → List Char → List String
  | [], acc => if acc.isEmpty then [] else [String.mk acc.reverse]
  | c :: rest, acc =>
      if pyIsSpace c then
        if acc.isEmpty then splitWsAux rest []
        else String.mk acc.reverse :: splitWsAux rest []
      else splitWsAux rest (c :: acc)

/-- Python `str.split()` with no argument. -/
def splitWs (s : List Char) : List String := splitWsAux s []

/-- Value bound to a top-level capability key: a raw string, a `cmds`
token list, or the `vcp` code map. -/
inductive CapValue where
  | raw (s : String)
  | cmds (tokens : List String)
  | vcp (m : List (String × Option (List String)))
deriving DecidableEq, Repr

/-- Loop state of `Display._parse_vcp_list`: the dict built so far, the
last open-paren position (initialised to 0), and the variable `code`,
unbound until the first `(` (reading it unbound is an UnboundLocalError). -/
structure VcpState where
  vcp : List (String × Option (List String))
  open_p : Nat
  code : Option String
deriving Repr

/-- One iteration of the loop of `Display._parse_vcp_list` at index `i`,
character `c`, over the full body `s`. -/
def vcpStep (s : List Char) (st : VcpState) (i : Nat) (c : Char) :
    Except PyErr VcpState :=
  if c = '(' then
    Except.ok { st with open_p := i,
                        code := some (String.mk (pySlice s ((i : Int) - 2) i)) }
  else if c = ')' then
    match st.code with
    | none => Except.error PyErr.unboundLocal
    | some cd =>
        Except.ok { st with
          vcp := pyDictSet cd (some (splitWs (pySliceNat s (st.open_p + 1) i)))
                   st.vcp }
  else if pyIsSpace c then
    match pyGet s ((i : Int) - 1) with
    | none => Except.error PyErr.indexError
    | some prev =>
        if prev = ')' then Except.ok st
        else
          Except.ok { st with
            vcp := pyDictSet (String.mk (pySlice s ((i : Int) - 2) i)) none
                     st.vcp }
  else Except.ok st

/-- Embedding of `Display._parse_vcp_list`. -/
def _parse_vcp_list (s : List Char) :
    Except PyErr (List (String × Option (List String))) := do
  let st ← s.enum.foldlM (fun st p => vcpStep s st p.1 p.2)
    ({ vcp := [], open_p := 0, code := none } : VcpState)
  pure st.vcp

/-- Loop state of `Display.parse_capabilities_string`: the nesting level
(an int, it can go negative on unbalanced input), the capabilities dict,
the `open_p` and `close_p` dicts keyed by level (`close_p` starts as
`{0: 0}`), and `id[0]` (unset until the first level-0 open paren). -/
structure CapState where
  level : Int
  caps : List (String × CapValue)
  open_p : List (Int × Nat)
  close_p : List (Int × Nat)
  id0 : Option String
deriving Repr

/-- One iteration of the loop of `Display.parse_capabilities_string` at
index `i`, character `c`, over the full string `s`. -/
def capStep (s : List Char) (st : CapState) (i : Nat) (c : Char) :
    Except PyErr CapState :=
  if c = '(' then
    if i = 0 then
      Except.ok { st with close_p := pyDictSet 0 1 st.close_p }
    else
      let st := { st with open_p := pyDictSet st.level i st.open_p }
      match (if st.level = 0 then
               match List.lookup 0 st.close_p with
               | none => Except.error PyErr.keyError
               | some cp =>
                   Except.ok { st with
                     id0 := some (String.mk (pySliceNat s (cp + 1) i)) }
             else Except.ok st) with
      | Except.error e => Except.error e
      | Except.ok st => Except.ok { st with level := st.level + 1 }
  else if c = ')' then
    let lvl := st.level - 1
    let st := { st with level := lvl, close_p := pyDictSet lvl i st.close_p }
    if lvl = 0 then
      match List.lookup 0 st.open_p with
      | none => Except.error PyErr.keyError
      | some op =>
          match st.id0 with
          | none => Except.error PyErr.keyError
          | some k =>
              let body := pySliceNat s (op + 1) i
              match (if k = "cmds" then Except.ok (CapValue.cmds (splitWs body))
                     else if k = "vcp" then
                       (_parse_vcp_list body).map CapValue.vcp
                     else Except.ok (CapValue.raw (String.mk body))) with
              | Except.error e => Except.error e
              | Except.ok v =>
                  Except.ok { st with caps := pyDictSet k v st.caps }
    else Except.ok st
  else Except.ok st

/-- Embedding of `Display.parse_capabilities_string`. -/
def parse_capabilities_string (s : List Char) :
    Except PyErr (List (String × CapValue)) := do
  let st ← s.enum.foldlM (fun st p => capStep s st p.1 p.2)
    ({ level := 0, caps := [], open_p := [], close_p := [(0, 0)], id0 := none } :
      CapState)
  pure st.caps

/-- The canonical capabilities string of the spec. -/
def canonicalCaps : String :=
  "(prot(monitor)type(lcd)model(U2713HM)cmds(01 02 03)vcp(02 04 14(01 04 05) 60(01 03 04 0F) AC)mccs_ver(2.1))"

/-- The VCP registry `vcp_codes`, in source order. -/
def vcp_codes : List (String × Nat) := [
  ("New Control Value", 0x02),
  ("Restore Factory Defaults", 0x04),
  ("Restore Factory Luminance/ Contrast Defaults", 0x05),
  ("Restore Factory Geometry Defaults", 0x06),
  ("Restore Factory Color Defaults", 0x08),
  ("Luminance", 0x10),
  ("Contrast", 0x12),
  ("Select Color Preset", 0x14),
  ("Video Gain (Drive): Red", 0x16),
  ("Video Gain (Drive): Green", 0x18),
  ("Video Gain (Drive): Blue", 0x1A),
  ("Active Control", 0x52),
  ("Input Source", 0x60),
  ("Video Black Level: Red", 0x16),
  ("Video Black Level: Green", 0x18),
  ("Video Black Level: Blue", 0x1A),
  ("Horizontal Frequency", 0xAC),
  ("Vertical Frequency", 0xAE),
  ("Flat Panel Sub-Pixel Layout", 0xB2),
  ("Display Technology Type", 0xB6),
  ("Application Enable Key", 0xC6),
  ("Display Controller Type", 0xC8),
  ("Display Firmware Level", 0xC9),
  ("OSD", 0xCA),
  ("Power Mode", 0xD6),
  ("Display Application", 0xDC),
  ("VCP Version", 0xDF),
  ("Dell-E0", 0xE0),
  ("Dell-E1", 0xE1),
  ("Dell-E2", 0xE2),
  ("Dell-F0", 0xF0),
  ("Dell-F1", 0xF1),
  ("Dell-F2", 0xF2),
  ("Dell-FD", 0xFD)]

/-- Enumeration table `Display._color_presets_i` (name to code). -/
def _color_presets_i : List (String × Nat) :=
  [("srgb", 0x01), ("5000k", 0x04), ("6500k", 0x05), ("7500k", 0x06),
   ("9300k", 0x08), ("10000k", 0x09), ("5700k", 0x0B), ("user", 0x0C)]

/-- Enumeration table `Display._input_sources_i` (name to code). -/
def _input_sources_i : List (String × Nat) :=
  [("vga", 0x01), ("dvi", 0x03), ("hdmi", 0x04), ("dp", 0x0F)]

/-- Enumeration table `Display._power_mode_i` (name to code). -/
def _power_mode_i : List (String × Nat) :=
  [("on", 0x01), ("off", 0x05)]

/-- Enumeration table `Display._display_applications_i` (name to code). -/
def _display_applications_i : List (String × Nat) :=
  [("std", 0x00), ("mix", 0x02), ("mov", 0x03), ("gam", 0x05)]

/-- One DDC/CI bus operation: a feature query
(`GetVCPFeatureAndVCPFeatureReply`) or a feature write (`SetVCPFeature`). -/
inductive DDCEvent where
  | get (code : Nat)
  | set (code : Nat) (value : Int)
deriving DecidableEq, Repr

/-- The write operations of a trace. -/
def writesOf (tr : List DDCEvent) : List DDCEvent :=
  tr.filter (fun e => match e with | DDCEvent.set _ _ => true | _ => false)

/-- A pure device: each feature code has a `(current, maximum)` pair, as
returned by `Display._get_vcf_feature_and_vcf_feature_reply`. -/
def Device : Type := Nat → Nat × Nat

/-- Embedding of the `Display.brightness` setter: look up the Luminance
code, query `(current, max)`, return if the requested value equals
`current`, otherwise clamp into `[0, max]` and write once. The result is
the bus trace and normal/erroneous termination. -/
def brightness_set (dev : Device) (value : Int) :
    List DDCEvent × Except PyErr Unit :=
  match List.lookup "Luminance" vcp_codes with
  | none => ([], Except.error PyErr.keyError)
  | some code =>
      let current := (dev code).1
      let maxv := (dev code).2
      if value = (current : Int) then ([DDCEvent.get code], Except.ok ())
      else
        let v := if value > (maxv : Int) then (maxv : Int)
                 else if value < 0 then 0 else value
        ([DDCEvent.get code, DDCEvent.set code v], Except.ok ())

/-- Embedding of the `Display.contrast` setter, same shape as the
brightness setter over the Contrast code. -/
def contrast_set (dev : Device) (value : Int) :
    List DDCEvent × Except PyErr Unit :=
  match List.lookup "Contrast" vcp_codes with
  | none => ([], Except.error PyErr.keyError)
  | some code =>
      let current := (dev code).1
      let maxv := (dev code).2
      if value = (current : Int) then ([DDCEvent.get code], Except.ok ())
      else
        let v := if value > (maxv : Int) then (maxv : Int)
                 else if value < 0 then 0 else value
        ([DDCEvent.get code, DDCEvent.set code v], Except.ok ())

/-- Embedding of the `Display.color_preset` setter: translate the name
through `_color_presets_i` (a missing name is a KeyError raised before
any bus traffic), then read-compare and write. -/
def color_preset_set (dev : Device) (name : String) :
    List DDCEvent × Except PyErr Unit :=
  match List.lookup name _color_presets_i with
  | none => ([], Except.error PyErr.keyError)
  | some v =>
      match List.lookup "Select Color Preset" vcp_codes with
      | none => ([], Except.error PyErr.keyError)
      | some code =>
          if (v : Int) = ((dev code).1 : Int) then
            ([DDCEvent.get code], Except.ok ())
          else
            ([DDCEvent.get code, DDCEvent.set code (v : Int)], Except.ok ())

/-- Embedding of the `Display.input_source` setter. -/
def input_source_set (dev : Device) (name : String) :
    List DDCEvent × Except PyErr Unit :=
  match List.lookup name _input_sources_i with
  | none => ([], Except.error PyErr.keyError)
  | some v =>
      match List.lookup "Input Source" vcp_codes with
      | none => ([], Except.error PyErr.keyError)
      | some code =>
          if (v : Int) = ((dev code).1 : Int) then
            ([DDCEvent.get code], Except.ok ())
          else
            ([DDCEvent.get code, DDCEvent.set code (v : Int)], Except.ok ())

/-- Embedding of the `Display.power_mode` setter. -/
def power_mode_set (dev : Device) (name : String) :
    List DDCEvent × Except PyErr Unit :=
  match List.lookup name _power_mode_i with
  | none => ([], Except.error PyErr.keyError)
  | some v =>
      match List.lookup "Power Mode" vcp_codes with
      | none => ([], Except.error PyErr.keyError)
      | some code =>
          if (v : Int) = ((dev code).1 : Int) then
            ([DDCEvent.get code], Except.ok ())
          else
            ([DDCEvent.get code, DDCEvent.set code (v : Int)], Except.ok ())

/-- Embedding of the `Display.display_application` setter. -/
def display_application_set (dev : Device) (name : String) :
    List DDCEvent × Except PyErr Unit :=
  match List.lookup name _display_applications_i with
  | none => ([], Except.error PyErr.keyError)
  | some v =>
      match List.lookup "Display Application" vcp_codes with
      | none => ([], Except.error PyErr.keyError)
      | some code =>
          if (v : Int) = ((dev code).1 : Int) then
            ([DDCEvent.get code], Except.ok ())
          else
            ([DDCEvent.get code, DDCEvent.set code (v : Int)], Except.ok ())

/-- Body of one iteration of the `Display.rgb` setter loop for a single
channel: query `(current, max)`, skip (read only) when the value is the
sentinel `-1` or equals `current`, otherwise clamp and write. -/
def chanEvents (dev : Device) (code : Nat) (value : Int) : List DDCEvent :=
  let current := (dev code).1
  let maxv := (dev code).2
  if value = -1 ∨ value = (current : Int) then [DDCEvent.get code]
  else
    let v := if value > (maxv : Int) then (maxv : Int)
             else if value < 0 then 0 else value
    [DDCEvent.get code, DDCEvent.set code v]

/-- Recursion of the `Display.rgb` setter over the value list and the
remaining channel names; exhausting the three names is the IndexError of
`color[i]`. -/
def rgb_set_aux (dev : Device) :
    List Int → List String → List DDCEvent × Except PyErr Unit
  | [], _ => ([], Except.ok ())
  | _ :: _, [] => ([], Except.error PyErr.indexError)
  | value :: rest, cname :: cnames =>
      match List.lookup ("Video Gain (Drive): " ++ cname) vcp_codes with
      | none => ([], Except.error PyErr.keyError)
      | some code =>
          let evs := chanEvents dev code value
          let t := rgb_set_aux dev rest cnames
          (evs ++ t.1, t.2)

/-- Embedding of the `Display.rgb` setter. -/
def rgb_set (dev : Device) (values : List Int) :
    List DDCEvent × Except PyErr Unit :=
  rgb_set_aux dev values ["Red", "Green", "Blue"]

/-- Embedding of the `Display.horizontal_frequency` getter: query the
current value, OR in the missing top bit when the raw value is below
50000, divide by 1000 (kHz, exact rational arithmetic). -/
def horizontal_frequency (dev : Device) :
    List DDCEvent × Except PyErr ℚ :=
  match List.lookup "Horizontal Frequency" vcp_codes with
  | none => ([], Except.error PyErr.keyError)
  | some code =>
      let v := (dev code).1
      let v := if v < 50000 then v ||| 0x10000 else v
      ([DDCEvent.get code], Except.ok ((v : ℚ) / 1000))

/-- Embedding of the `Display.color_temperature` getter: the registry
lookups for the two feature names happen before any bus traffic. -/
def color_temperature_get (dev : Device) :
    List DDCEvent × Except PyErr Nat :=
  match List.lookup "Color Temperature Request" vcp_codes with
  | none => ([], Except.error PyErr.keyError)
  | some code =>
      let v := (dev code).1
      match List.lookup "Color Temperature Increment" vcp_codes with
      | none => ([DDCEvent.get code], Except.error PyErr.keyError)
      | some code2 =>
          let inc := (dev code2).1
          ([DDCEvent.get code, DDCEvent.get code2],
           Except.ok (3000 + inc * v))

/-- Embedding of the `Display.color_temperature` setter: the registry
lookup for the request feature name happens before any bus traffic;
the rest mirrors the source (floor division by the increment, no-op
check, clamp, one write). -/
def color_temperature_set (dev : Device) (value : Int) :
    List DDCEvent × Except PyErr Unit :=
  match List.lookup "Color Temperature Request" vcp_codes with
  | none => ([], Except.error PyErr.keyError)
  | some code =>
      let current := (dev code).1
      let maxv := (dev code).2
      match List.lookup "Color Temperature Increment" vcp_codes with
      | none => ([DDCEvent.get code], Except.error PyErr.keyError)
      | some code2 =>
          let inc := (dev code2).1
          if inc = 0 then
            ([DDCEvent.get code, DDCEvent.get code2],
             Except.error PyErr.zeroDivision)
          else
            let v := Int.fdiv (value - 3000) (inc : Int)
            if v = (current : Int) then
              ([DDCEvent.get code, DDCEvent.get code2], Except.ok ())
            else
              let v := if v > (maxv : Int) then (maxv : Int)
                       else if v < 0 then 0 else v
              ([DDCEvent.get code, DDCEvent.get code2, DDCEvent.set code v],
               Except.ok ())

/-- C1: evaluating `parse_capabilities_string` at the canonical
capabilities string. The resulting document has `model == "U2713HM"`,
`cmds == ["01","02","03"]`, `vcp["02"]`, `vcp["14"]` and `vcp["60"]` as
the claim states, but the vcp map has no key `"AC"` at all (the claim
expects it present and bound to null), and it contains spurious keys
`"01"` and `"03"` taken from value tokens inside parenthesized
sub-groups. -/
theorem C1_canonical_parse :
    parse_capabilities_string canonicalCaps.toList =
      Except.ok
        [("rot", CapValue.raw "monitor"),
         ("type", CapValue.raw "lcd"),
         ("model", CapValue.raw "U2713HM"),
         ("cmds", CapValue.cmds ["01", "02", "03"]),
         ("vcp", CapValue.vcp
           [("02", none), ("04", none), ("01", none),
            ("14", some ["01", "04", "05"]),
            ("03", none),
            ("60", some ["01", "03", "04", "0F"])]),
         ("mccs_ver", CapValue.raw "2.1")] ∧
    List.lookup "AC"
        [("02", (none : Option (List String))), ("04", none), ("01", none),
         ("14", some ["01", "04", "05"]),
         ("03", none),
         ("60", some ["01", "03", "04", "0F"])] = none := by
  constructor <;> rfl

/-- C2: the leading `(` is indeed treated as an unlabeled wrapper opening
no nesting level, but the first top-level key is sliced as
`s[close_p[0]+1 : i]` with `close_p[0]` set to 1, so its first character
is dropped: parsing `"(prot(monitor))"` stores the key `"rot"`, not
`"prot"`. -/
theorem C2_first_key_truncated :
    parse_capabilities_string (String.toList "(prot(monitor))") =
      Except.ok [("rot", CapValue.raw "monitor")] := by rfl

/-- C10: evaluating `_parse_vcp_list` at the vcp body of the canonical
string: the value tokens `"01"` and `"03"` from inside the sub-groups of
codes `"14"` and `"60"` do end up as top-level keys of the returned map,
and the final code token `"AC"` (no trailing whitespace) is absent. -/
theorem C10_vcp_list_keys :
    _parse_vcp_list (String.toList "02 04 14(01 04 05) 60(01 03 04 0F) AC") =
      Except.ok
        [("02", none), ("04", none), ("01", none),
         ("14", some ["01", "04", "05"]),
         ("03", none),
         ("60", some ["01", "03", "04", "0F"])] := by rfl

/-- C4 counterexample: the unbalanced string `"m("` does not fail at all;
the parser returns an ordinary (empty) document, refuting "a document is
returned only on full success" (and there is no CapabilitiesParseError
anywhere in the code to be raised). -/
theorem C4_counterexample :
    parse_capabilities_string (String.toList "m(") = Except.ok [] := by rfl

/-- C4 amended: the parser performs no input validation and defines no
CapabilitiesParseError. Unbalanced input yields an ordinary, possibly
empty or partial, document: `")x(y)"` gives an empty document,
`"a(b)c("` returns a partial document holding only the first group, and
non-hex tokens where codes are expected are accepted silently as keys. -/
theorem C4_no_validation_amended :
    parse_capabilities_string (String.toList ")x(y)") = Except.ok [] ∧
    parse_capabilities_string (String.toList "a(b)c(") =
      Except.ok [("", CapValue.raw "b")] ∧
    _parse_vcp_list (String.toList "zz qq(aa bb)") =
      Except.ok [("zz", none), ("aa", none), ("qq", some ["aa", "bb"])] := by
  refine ⟨rfl, rfl, rfl⟩

/-- C3 counterexample: with every channel set to the sentinel `-1`, a
`get_feature` query is still issued for the red gain channel (code 0x16):
the read-compare is not skipped, refuting "no get_feature query is issued
for that channel". -/
theorem C3_counterexample :
    DDCEvent.get 0x16 ∈ (rgb_set (fun _ => (5, 100)) [-1, -1, -1]).1 := by
  decide

/-- C3 amended: the rgb setter handles the three channels independently
(codes 0x16, 0x18, 0x1A); a sentinel `-1` skips the write for that
channel but a `get_feature` query is still issued before the check; a
non-sentinel value equal to the read current is a no-op (read only), and
any other value is clamped to `[0, maximum]` and written once. -/
theorem C3_rgb_sentinel (dev : Device) (r g b : Int) :
    (rgb_set dev [r, g, b]).1 =
      chanEvents dev 0x16 r ++ chanEvents dev 0x18 g ++
        chanEvents dev 0x1A b ∧
    (rgb_set dev [r, g, b]).2 = Except.ok () ∧
    (∀ code, chanEvents dev code (-1) = [DDCEvent.get code]) ∧
    (∀ code v, v ≠ -1 → v = ((dev code).1 : Int) →
       chanEvents dev code v = [DDCEvent.get code]) ∧
    (∀ code v, v ≠ -1 → v ≠ ((dev code).1 : Int) →
       chanEvents dev code v =
         [DDCEvent.get code,
          DDCEvent.set code (max 0 (min v ((dev code).2 : Int)))]) := by
  have e : rgb_set dev [r, g, b] =
      (chanEvents dev 0x16 r ++
         (chanEvents dev 0x18 g ++ (chanEvents dev 0x1A b ++ [])),
       Except.ok ()) := by rfl
  refine ⟨?_, ?_, ?_, ?_, ?_⟩
  · rw [e]
    simp [List.append_assoc]
  · rw [e]
  · intro code
    simp [chanEvents]
  · intro code v hv hcur
    simp [chanEvents, hv, hcur]
  · intro code v hv hcur
    have hnn : (0 : Int) ≤ ((dev code).2 : Int) := Int.natCast_nonneg _
    simp only [chanEvents]
    rw [if_neg (by push_neg; exact ⟨hv, hcur⟩)]
    have hcl : (if v > ((dev code).2 : Int) then ((dev code).2 : Int)
            else if v < 0 then 0 else v) =
        max 0 (min v ((dev code).2 : Int)) := by
      split_ifs <;> omega
    rw [hcl]

/-- C3 witness: the amended theorem applied at a concrete device and the
value list `[-1, 7, 200]`. -/
theorem C3_rgb_sentinel_witness :
    (rgb_set (fun _ => (5, 100)) [-1, 7, 200]).1 =
      chanEvents (fun _ => (5, 100)) 0x16 (-1) ++
        chanEvents (fun _ => (5, 100)) 0x18 7 ++
        chanEvents (fun _ => (5, 100)) 0x1A 200 ∧
    chanEvents (fun _ => (5, 100)) 0x1A 200 =
      [DDCEvent.get 0x1A,
       DDCEvent.set 0x1A (max 0 (min 200 (((100 : Nat) : Int))))] :=
  ⟨(C3_rgb_sentinel (fun _ => (5, 100)) (-1) 7 200).1,
   (C3_rgb_sentinel (fun _ => (5, 100)) (-1) 7 200).2.2.2.2 0x1A 200
     (by decide) (by decide)⟩

/-- C5: for the continuous features brightness (Luminance, 0x10) and
contrast (0x12), setting the value the read reports as current issues no
device write: the trace contains no set_feature event and the setter
returns normally. -/
theorem C5_noop_write (dev : Device) (v : Int) :
    (v = ((dev 0x10).1 : Int) →
       writesOf (brightness_set dev v).1 = [] ∧
       (brightness_set dev v).2 = Except.ok ()) ∧
    (v = ((dev 0x12).1 : Int) →
       writesOf (contrast_set dev v).1 = [] ∧
       (contrast_set dev v).2 = Except.ok ()) := by
  have hL : List.lookup "Luminance" vcp_codes = some 0x10 := by rfl
  have hC : List.lookup "Contrast" vcp_codes = some 0x12 := by rfl
  constructor
  · intro h
    simp [brightness_set, hL, h, writesOf]
  · intro h
    simp [contrast_set, hC, h, writesOf]

/-- C5 witness: the no-op theorem applied at a concrete device reporting
current value 5 for every feature code. -/
theorem C5_noop_write_witness :
    writesOf (brightness_set (fun _ => (5, 100)) 5).1 = [] ∧
    writesOf (contrast_set (fun _ => (5, 100)) 5).1 = [] :=
  ⟨((C5_noop_write (fun _ => (5, 100)) 5).1 (by decide)).1,
   ((C5_noop_write (fun _ => (5, 100)) 5).2 (by decide)).1⟩

/-- C6: with the device reporting maximum 100 for Luminance and a current
value different from 150, setting brightness to 150 issues exactly one
write, of 100; setting brightness to -10 (current different from -10)
issues exactly one write, of 0. -/
theorem C6_clamping (dev : Device) :
    ((dev 0x10).2 = 100 → ((dev 0x10).1 : Int) ≠ 150 →
       (brightness_set dev 150).1 =
         [DDCEvent.get 0x10, DDCEvent.set 0x10 100] ∧
       (brightness_set dev 150).2 = Except.ok ()) ∧
    (((dev 0x10).1 : Int) ≠ -10 →
       (brightness_set dev (-10)).1 =
         [DDCEvent.get 0x10, DDCEvent.set 0x10 0] ∧
       (brightness_set dev (-10)).2 = Except.ok ()) := by
  have hL : List.lookup "Luminance" vcp_codes = some 0x10 := by rfl
  constructor
  · intro hmax hcur
    have h1 : ¬ ((150 : Int) = ((dev 0x10).1 : Int)) := fun e => hcur e.symm
    have h2 : (150 : Int) > ((dev 0x10).2 : Int) := by
      rw [hmax]; decide
    simp [brightness_set, hL, h1, h2, hmax]
  · intro hcur
    have h1 : ¬ ((-10 : Int) = ((dev 0x10).1 : Int)) := fun e => hcur e.symm
    have h2 : ¬ ((-10 : Int) > ((dev 0x10).2 : Int)) := by
      have := Int.natCast_nonneg (dev 0x10).2
      omega
    simp [brightness_set, hL, h1, h2]

/-- C6 witness: the clamping theorem applied at a concrete device
reporting (current, maximum) = (5, 100). -/
theorem C6_clamping_witness :
    (brightness_set (fun _ => (5, 100)) 150).1 =
      [DDCEvent.get 0x10, DDCEvent.set 0x10 100] ∧
    (brightness_set (fun _ => (5, 100)) (-10)).1 =
      [DDCEvent.get 0x10, DDCEvent.set 0x10 0] :=
  ⟨((C6_clamping (fun _ => (5, 100))).1 (by decide) (by decide)).1,
   ((C6_clamping (fun _ => (5, 100))).2 (by decide)).1⟩

/-- C7: for each of the four settable enumerations, a name absent from
the relevant table makes the setter fail with the name-lookup error
(Python KeyError, the InvalidSettingName of the design) with an empty
bus trace: zero get_feature and zero set_feature invocations. -/
theorem C7_unknown_name_rejected (dev : Device) (name : String) :
    (List.lookup name _color_presets_i = none →
       color_preset_set dev name = ([], Except.error PyErr.keyError)) ∧
    (List.lookup name _input_sources_i = none →
       input_source_set dev name = ([], Except.error PyErr.keyError)) ∧
    (List.lookup name _power_mode_i = none →
       power_mode_set dev name = ([], Except.error PyErr.keyError)) ∧
    (List.lookup name _display_applications_i = none →
       display_application_set dev name = ([], Except.error PyErr.keyError)) := by
  refine ⟨?_, ?_, ?_, ?_⟩ <;> intro h
  · simp [color_preset_set, h]
  · simp [input_source_set, h]
  · simp [power_mode_set, h]
  · simp [display_application_set, h]

/-- C7 witness: the rejection theorem applied at the name "neon", which
is in none of the four tables. -/
theorem C7_unknown_name_rejected_witness :
    color_preset_set (fun _ => (0, 0)) "neon" =
      ([], Except.error PyErr.keyError) ∧
    input_source_set (fun _ => (0, 0)) "neon" =
      ([], Except.error PyErr.keyError) ∧
    power_mode_set (fun _ => (0, 0)) "neon" =
      ([], Except.error PyErr.keyError) ∧
    display_application_set (fun _ => (0, 0)) "neon" =
      ([], Except.error PyErr.keyError) :=
  ⟨(C7_unknown_name_rejected (fun _ => (0, 0)) "neon").1 (by rfl),
   (C7_unknown_name_rejected (fun _ => (0, 0)) "neon").2.1 (by rfl),
   (C7_unknown_name_rejected (fun _ => (0, 0)) "neon").2.2.1 (by rfl),
   (C7_unknown_name_rejected (fun _ => (0, 0)) "neon").2.2.2 (by rfl)⟩

/-- C8: the horizontal_frequency getter returns raw/1000 kHz when the raw
current value is at least 50000 and (raw OR 0x10000)/1000 kHz below
50000; concretely, raw 40000 decodes to 105.536 and raw 60000 to 60. -/
theorem C8_horizontal_frequency (dev : Device) :
    (50000 ≤ (dev 0xAC).1 →
       horizontal_frequency dev =
         ([DDCEvent.get 0xAC], Except.ok (((dev 0xAC).1 : ℚ) / 1000))) ∧
    ((dev 0xAC).1 < 50000 →
       horizontal_frequency dev =
         ([DDCEvent.get 0xAC],
          Except.ok ((((dev 0xAC).1 ||| 0x10000 : Nat) : ℚ) / 1000))) ∧
    horizontal_frequency (fun _ => (40000, 0)) =
      ([DDCEvent.get 0xAC], Except.ok (105.536 : ℚ)) ∧
    horizontal_frequency (fun _ => (60000, 0)) =
      ([DDCEvent.get 0xAC], Except.ok (60 : ℚ)) := by
  have hH : List.lookup "Horizontal Frequency" vcp_codes = some 0xAC := by rfl
  refine ⟨?_, ?_, ?_, ?_⟩
  · intro h
    have : ¬ ((dev 0xAC).1 < 50000) := by omega
    simp [horizontal_frequency, hH, this]
  · intro h
    simp [horizontal_frequency, hH, h]
  · have hor : (40000 ||| 0x10000 : Nat) = 105536 := by rfl
    simp [horizontal_frequency, hH, hor]
    norm_num
  · simp [horizontal_frequency, hH]
    norm_num

/-- C8 witness: the general decode rules applied at concrete devices
reporting raw 40000 and raw 60000. -/
theorem C8_horizontal_frequency_witness :
    horizontal_frequency (fun _ => (40000, 0)) =
      ([DDCEvent.get 0xAC],
       Except.ok ((((40000 : Nat) ||| 0x10000 : Nat) : ℚ) / 1000)) ∧
    horizontal_frequency (fun _ => (60000, 0)) =
      ([DDCEvent.get 0xAC], Except.ok (((60000 : Nat) : ℚ) / 1000)) :=
  ⟨(C8_horizontal_frequency (fun _ => (40000, 0))).2.1 (by decide),
   (C8_horizontal_frequency (fun _ => (60000, 0))).1 (by decide)⟩

/-- C9: the registry has no entry named "Color Temperature Request" or
"Color Temperature Increment", so the color_temperature getter and
setter both fail with the registry KeyError before any device I/O (the
returned trace is empty). -/
theorem C9_color_temperature_unknown_feature :
    List.lookup "Color Temperature Request" vcp_codes = none ∧
    List.lookup "Color Temperature Increment" vcp_codes = none ∧
    (∀ dev : Device,
       color_temperature_get dev = ([], Except.error PyErr.keyError)) ∧
    (∀ (dev : Device) (v : Int),
       color_temperature_set dev v = ([], Except.error PyErr.keyError)) := by
  have h1 : List.lookup "Color Temperature Request" vcp_codes = none := by rfl
  have h2 : List.lookup "Color Temperature Increment" vcp_codes = none := by
    rfl
  refine ⟨h1, h2, ?_, ?_⟩
  · intro dev
    simp [color_temperature_get, h1]
  · intro dev v
    simp [color_temperature_set, h1]
